import Mathlib

/-!
Shallow embedding of `src/bot.py` (a Telegram download-and-deliver bot).

The handler `handle_link_message` is embedded as a pure function from the
message text and an environment (the outcome of the blocking `yt_dlp` call,
whether the mid-workflow status edit raises, and whether the chosen upload
call succeeds) to a trace of chat/filesystem effects (`Act`).  Python
truthiness (`None` and `""`/`0` are falsy) is made explicit wherever the
source relies on it.
-/

/-- Configuration constant from bot.py line 31: `MAX_SEND_BYTES = 50 * 1024 * 1024`. -/
def MAX_SEND_BYTES : Nat := 50 * 1024 * 1024

/-- Character class of the regex `\s` (ASCII range), used by `URL_RE`
(`https?://[^\s]+`, bot.py line 34) and by `str.strip()`. -/
def isSpaceChar (c : Char) : Bool :=
  c == ' ' || c == '\t' || c == '\n' || c == '\r' || c == Char.ofNat 11 || c == Char.ofNat 12

/-- The characters of the literal scheme `http://`. -/
def httpList : List Char := "http://".toList

/-- The characters of the literal scheme `https://`. -/
def httpsList : List Char := "https://".toList

/-- One attempt of the regex `https?://[^\s]+` anchored at the head of `s`:
the engine greedily prefers the `s` branch of `https?`, then `[^\s]+` takes
the maximal non-empty run of non-whitespace.  Returns the match and the
remaining input, or `none` when the regex does not match at this position. -/
def tryMatchAt (s : List Char) : Option (List Char × List Char) :=
  if s.take 8 = httpsList then
    let rest := s.drop 8
    let body := rest.takeWhile (fun c => !isSpaceChar c)
    if body = [] then none else some (httpsList ++ body, rest.drop body.length)
  else if s.take 7 = httpList then
    let rest := s.drop 7
    let body := rest.takeWhile (fun c => !isSpaceChar c)
    if body = [] then none else some (httpList ++ body, rest.drop body.length)
  else none

/-- Fuel-indexed scan implementing `URL_RE.findall(text)`: try the pattern at
every position left to right, continuing after the end of each match.  The
fuel is instantiated with the length of the input, which bounds the number
of positions visited. -/
def findAllAux : Nat → List Char → List (List Char)
  | 0, _ => []
  | _ + 1, [] => []
  | n + 1, c :: rest =>
    match tryMatchAt (c :: rest) with
    | some (m, r) => m :: findAllAux n r
    | none => findAllAux n rest

/-- Embeds `URL_RE.findall(text)` (bot.py line 95). -/
def findAll (s : List Char) : List (List Char) := findAllAux s.length s

/-- Embeds Python `str.strip()` as used on the matched URL (bot.py line 102):
drop whitespace from both ends. -/
def stripChars (l : List Char) : List Char :=
  ((l.dropWhile isSpaceChar).reverse.dropWhile isSpaceChar).reverse

/-- Decidable substring occurrence used to state the no-link claims:
`pat` occurs somewhere in `s`. -/
def containsSubB (pat s : List Char) : Bool :=
  (List.range (s.length + 1)).any (fun i => (s.drop i).take pat.length == pat)

/-- Python truthiness of an optional string: `None` and `""` are falsy. -/
def pyTruthyStr : Option String → Bool
  | none => false
  | some s => s != ""

/-- Embeds Python `a or b` on an optional string `a` and a string `b`
(e.g. `info.get("title") or Path(filepath).name`, bot.py line 134, and
`info.get("webpage_url") or url`, bot.py line 169). -/
def pyOrStr (a : Option String) (b : String) : String :=
  match a with
  | none => b
  | some s => if s = "" then b else s

/-- Embeds the f-string rendering of an optional value: `None` prints as
the four characters `None` (bot.py lines 176-177). -/
def pyStrOpt : Option String → String
  | none => "None"
  | some s => s

/-- Embeds Python `repr` of an optional string: `None` or a quoted string. -/
def pyReprOpt : Option String → String
  | none => "None"
  | some s => "\x27" ++ s ++ "\x27"

/-- Embeds `Path(filepath).name` (bot.py lines 134 and 158) for ordinary
file paths: the component after the last slash. -/
def pathName (p : String) : String :=
  String.mk ((p.toList.foldl (fun acc c => if c = '/' then [] else c :: acc) []).reverse)

/-- Embeds `os.path.join(outdir, name)` as used at bot.py line 80
(relative `name`, no trailing slash on `outdir`). -/
def pathJoin (a b : String) : String := a ++ "/" ++ b

/-- Round `x / d` to the nearest integer, ties to even — the rounding of
Python `format(·, ".2f")` on the exact quotient. -/
def roundHalfEven (x d : Nat) : Nat :=
  let q := x / d
  let r := x % d
  if 2 * r < d then q
  else if d < 2 * r then q + 1
  else if q % 2 = 0 then q else q + 1

/-- Zero-padded two-digit rendering of `n < 100`. -/
def twoDigits (n : Nat) : String :=
  if n < 10 then "0" ++ toString n else toString n

/-- Embeds the numeric part of `f"{size/1024/1024:.2f}"` (bot.py line 140):
`n / 2^20` with two decimals. -/
def formatMB2 (n : Nat) : String :=
  let h := roundHalfEven (n * 100) (1024 * 1024)
  toString (h / 100) ++ "." ++ twoDigits (h % 100)

/-- Embeds bot.py line 140:
`readable_size = f"{size/1024/1024:.2f} MB" if size else "unknown size"`.
Python truthiness: both `None` (the `OSError` case of `os.path.getsize`)
and a size of `0` take the `"unknown size"` branch. -/
def readable_size (size : Option Nat) : String :=
  match size with
  | none => "unknown size"
  | some n => if n = 0 then "unknown size" else formatMB2 n ++ " MB"

/-- Embeds the condition of bot.py line 148: `if size and size <= MAX_SEND_BYTES`.
Python truthiness: `None` and `0` are falsy, so the comparison is reached
only for a known non-zero size. -/
def sizeOkB : Option Nat → Bool
  | none => false
  | some n => if n = 0 then false else decide (n ≤ MAX_SEND_BYTES)

/-- The metadata fields of the yt-dlp info dict that the handler reads. -/
structure Info where
  title : Option String
  uploader : Option String
  webpage_url : Option String
deriving DecidableEq

/-- Outcome of the blocking `run_yt_dlp` call as observed by the handler:
either the engine raised (bot.py line 112), or it returned an info record
and a file path, of which the handler checks existence (line 124) and
queries the size (lines 135-138, `none` when `os.path.getsize` raises). -/
inductive DlOutcome where
  | fail (err : String)
  | ok (info : Info) (file : String) (fileExists : Bool) (size : Option Nat)
deriving DecidableEq

/-- Environment of one request: the download outcome, whether the
"Downloaded ..." status edit at bot.py line 142 raises (an unhandled
exception propagating out of the handler body), and whether the chosen
upload call inside the `try` of lines 147-161 succeeds. -/
structure Env where
  outcome : DlOutcome
  midEditRaises : Bool
  uploadOk : Bool
deriving DecidableEq

/-- Observable effects of one request, in order of occurrence. -/
inductive Act where
  | replyText (t : String)
  | postStatus (t : String)
  | editStatus (t : String)
  | deleteStatus
  | tryVideo (file caption : String)
  | tryDocument (file fname caption : String)
  | download (url : String)
  | mkTmpDir
  | rmTmpDir
deriving DecidableEq

/-- Reply at bot.py line 98 when the regex found no URL. -/
def noLinkReply : String :=
  "I couldn\x27t find a link in your message. Send a single URL."

/-- Initial status message, bot.py line 105. -/
def statusInit (url : String) : String :=
  "🔎 Preparing to download...\n" ++ url

/-- Terminal edit on download failure, bot.py lines 114-117. -/
def dlFailedText (e : String) : String :=
  "❌ Download failed: " ++ e ++ "\n\n" ++
  "Possible reasons: private/restricted video, cookies required, or yt-dlp extractor issue."

/-- Abstraction of `repr(info)` over the fields this embedding tracks. -/
def reprInfo (i : Info) : String :=
  "\x7b\x27title\x27: " ++ pyReprOpt i.title ++
  ", \x27uploader\x27: " ++ pyReprOpt i.uploader ++
  ", \x27webpage_url\x27: " ++ pyReprOpt i.webpage_url ++ "\x7d"

/-- Terminal edit when no file was produced, bot.py lines 126-129. -/
def noFileText (info : Info) : String :=
  "❌ yt-dlp did not produce a downloadable file. Here is the info:\n" ++
  "\x60" ++ reprInfo info ++ "\x60 (see logs)."

/-- Mid-workflow status edit, bot.py lines 142-144. -/
def downloadedText (title rs : String) : String :=
  "⬇️ Downloaded: *" ++ title ++ "* (" ++ rs ++ "). Preparing to send..."

/-- Terminal edit on upload failure, bot.py lines 172-179. The four metadata
lines render `meta` built at lines 166-171: raw `info.get` values for title
and uploader (so `None` prints as `None`), `webpage_url or url` for the
link, and the already-computed `readable_size`. -/
def fbHeader : String :=
  "⚠️ I couldn\x27t upload the file to Telegram (maybe it\x27s too large for the bot). " ++
  "I\x27ll send you the original link and metadata so you can download it yourself.\n\n"

/-- Terminal edit on upload failure (continued): the full message body. -/
def fallbackText (info : Info) (url : String) (rs : String) : String :=
  fbHeader ++
  "Title: " ++ pyStrOpt info.title ++ "\n" ++
  "Uploader: " ++ pyStrOpt info.uploader ++ "\n" ++
  "Original: " ++ pyOrStr info.webpage_url url ++ "\n" ++
  "Size (detected): " ++ rs

/-- Options record passed to `YoutubeDL` (the extraction engine). Fields not
set in the source are `none`. -/
structure YDLOpts where
  format : String
  noplaylist : Bool
  outtmpl : String
  quiet : Bool
  no_warnings : Bool
  retries : Option Nat
  socket_timeout : Option Nat
  cookiefile : Option String
deriving DecidableEq

/-- Embeds `YTDLP_OPTS_BASE` (bot.py lines 42-53). -/
def YTDLP_OPTS_BASE : YDLOpts :=
  YDLOpts.mk "bestvideo+bestaudio/best" true "%(id)s.%(ext)s" true true none none none

/-- The options `run_yt_dlp` (bot.py lines 74-83) hands to the engine:
a copy of the base options with `outtmpl` joined onto `outdir` and
`retries` set to 2.  Nothing else is added. -/
def run_yt_dlp_opts (outdir : String) : YDLOpts :=
  let o := YTDLP_OPTS_BASE
  YDLOpts.mk o.format o.noplaylist (pathJoin outdir o.outtmpl) o.quiet o.no_warnings
    (some 2) o.socket_timeout o.cookiefile

/-- Embeds bot.py lines 121-181: the body of the `with` block after the
download call returned (or raised).  `deliverActs` handles the `ok` case:
the missing-file check (line 124), the size computation already reflected
in `size`, the "Downloaded" edit (line 142, which may raise — in that case
nothing further runs in the body), the size-gated choice of upload mode
(lines 147-161), and the `except` fallback edit (lines 162-181). -/
def deliverActs (info : Info) (file : String) (fileExists : Bool) (size : Option Nat)
    (url : String) (midEditRaises uploadOk : Bool) : List Act :=
  if file = "" ∨ fileExists = false then
    [Act.editStatus (noFileText info)]
  else
    let title := pyOrStr info.title (pathName file)
    let rs := readable_size size
    if midEditRaises then []
    else
      Act.editStatus (downloadedText title rs) ::
      (if sizeOkB size then
        Act.tryVideo file title ::
          (if uploadOk then [Act.deleteStatus]
           else [Act.editStatus (fallbackText info url rs)])
       else
        Act.tryDocument file (pathName file) title ::
          (if uploadOk then [Act.deleteStatus]
           else [Act.editStatus (fallbackText info url rs)]))

/-- Dispatch on the outcome of the download call: the `except` branch of
bot.py lines 112-119, or the delivery logic. -/
def handleBody (env : Env) (url : String) : List Act :=
  match env.outcome with
  | DlOutcome.fail e => [Act.editStatus (dlFailedText e)]
  | DlOutcome.ok info file ex size =>
      deliverActs info file ex size url env.midEditRaises env.uploadOk

/-- The trace of a request whose text contained a URL: post the status
message (bot.py line 105), enter the `with tempfile.TemporaryDirectory()`
block (line 108) which creates the directory, run the download, run the
body, and — by the context-manager guarantee of `with`, on every exit path
including an exception propagating out — remove the directory. -/
def handleWithUrl (env : Env) (url : String) : List Act :=
  ([Act.postStatus (statusInit url), Act.mkTmpDir, Act.download url] ++ handleBody env url)
    ++ [Act.rmTmpDir]

/-- Embeds `handle_link_message` (bot.py lines 91-181) as a trace of effects:
extract the URLs (line 95), reply and stop when there are none (lines
97-99), else process the first URL only (line 102). -/
def handle (text : String) (env : Env) : List Act :=
  match findAll text.toList with
  | [] => [Act.replyText noLinkReply]
  | m :: _ => handleWithUrl env (String.mk (stripChars m))

/-- Recognizer for the status-message post. -/
def isPost : Act → Bool
  | Act.postStatus _ => true
  | _ => false

/-- Recognizer for status-message operations (post, edit, delete). -/
def isStatusOp : Act → Bool
  | Act.postStatus _ => true
  | Act.editStatus _ => true
  | Act.deleteStatus => true
  | _ => false

/-- Recognizer for upload attempts. -/
def isTry : Act → Bool
  | Act.tryVideo _ _ => true
  | Act.tryDocument _ _ _ => true
  | _ => false

/-- Recognizer for invocations of the download orchestrator. -/
def isDownload : Act → Bool
  | Act.download _ => true
  | _ => false

/-- The last status-message operation of a trace, if any. -/
def lastStatusOp : List Act → Option Act
  | [] => none
  | a :: tr =>
    match lastStatusOp tr with
    | some b => some b
    | none => if isStatusOp a then some a else none

/-- Whether the request-scoped temporary directory exists after running the
trace, starting from a filesystem without it. -/
def tmpAfter (tr : List Act) : Bool :=
  tr.foldl (fun s a =>
    match a with
    | Act.mkTmpDir => true
    | Act.rmTmpDir => false
    | _ => s) false

theorem handle_of_findAll (text : String) (env : Env) (m : List Char)
    (ms : List (List Char)) (h : findAll text.toList = m :: ms) :
    handle text env = handleWithUrl env (String.mk (stripChars m)) := by
  unfold handle
  rw [h]

theorem handle_of_findAll_nil (text : String) (env : Env)
    (h : findAll text.toList = []) :
    handle text env = [Act.replyText noLinkReply] := by
  unfold handle
  rw [h]

theorem sizeOkB_iff (size : Option Nat) :
    sizeOkB size = true ↔ ∃ n, size = some n ∧ n ≠ 0 ∧ n ≤ MAX_SEND_BYTES := by
  cases size with
  | none => simp [sizeOkB]
  | some n =>
    by_cases h : n = 0
    · subst h
      simp [sizeOkB]
    · simp [sizeOkB, h]

theorem tryMatchAt_scheme (s : List Char) (x : List Char × List Char)
    (h : tryMatchAt s = some x) :
    s.take 7 = httpList ∨ s.take 8 = httpsList := by
  by_cases h8 : s.take 8 = httpsList
  · exact Or.inr h8
  · by_cases h7 : s.take 7 = httpList
    · exact Or.inl h7
    · exfalso
      unfold tryMatchAt at h
      rw [if_neg h8, if_neg h7] at h
      exact Option.noConfusion h

theorem containsSubB_of_take (pat s : List Char) (i : Nat) (hi : i ≤ s.length)
    (h : (s.drop i).take pat.length = pat) : containsSubB pat s = true := by
  unfold containsSubB
  rw [List.any_eq_true]
  exact ⟨i, List.mem_range.mpr (by omega), by rw [beq_iff_eq]; exact h⟩

theorem findAllAux_eq_nil (n : Nat) (s : List Char)
    (H : ∀ i, tryMatchAt (s.drop i) = none) : findAllAux n s = [] := by
  induction n generalizing s with
  | zero => rfl
  | succ n ih =>
    cases s with
    | nil => rfl
    | cons c rest =>
      have h0 := H 0
      simp only [List.drop_zero] at h0
      unfold findAllAux
      rw [h0]
      exact ih rest (fun i => by simpa [List.drop_succ_cons] using H (i + 1))

theorem findAll_eq_nil_of_no_scheme (s : List Char)
    (h1 : containsSubB httpList s = false)
    (h2 : containsSubB httpsList s = false) : findAll s = [] := by
  apply findAllAux_eq_nil
  intro i
  by_cases hi : i ≤ s.length
  · cases hm : tryMatchAt (s.drop i) with
    | none => rfl
    | some x =>
      exfalso
      rcases tryMatchAt_scheme _ _ hm with h7 | h8
      · have hlen : httpList.length = 7 := by decide
        have := containsSubB_of_take httpList s i hi (by rw [hlen]; exact h7)
        rw [h1] at this
        exact Bool.noConfusion this
      · have hlen : httpsList.length = 8 := by decide
        have := containsSubB_of_take httpsList s i hi (by rw [hlen]; exact h8)
        rw [h2] at this
        exact Bool.noConfusion this
  · have hd : s.drop i = [] := List.drop_eq_nil_of_le (by omega)
    rw [hd]
    decide

/-- Claim C2 (counterexample): the options record handed to the extraction
engine by `run_yt_dlp` contains no socket-level timeout and no cookie file,
for the concrete temporary directory shown; the claim as stated requires
both. -/
theorem C2_counterexample :
    (run_yt_dlp_opts "/tmp/tg_dl_abc").socket_timeout = none ∧
    (run_yt_dlp_opts "/tmp/tg_dl_abc").cookiefile = none := by
  constructor <;> rfl

/-- Claim C2 (amended): for every download request, `run_yt_dlp` invokes
the engine with a bounded retry count (2), playlist expansion suppressed,
the fixed format preference, and the output template joined onto the
request directory — but it sets no socket-level timeout and never passes a
cookie file, whether or not one exists on disk. -/
theorem C2_engine_config (outdir : String) :
    (run_yt_dlp_opts outdir).retries = some 2 ∧
    (run_yt_dlp_opts outdir).socket_timeout = none ∧
    (run_yt_dlp_opts outdir).cookiefile = none ∧
    (run_yt_dlp_opts outdir).noplaylist = true ∧
    (run_yt_dlp_opts outdir).format = "bestvideo+bestaudio/best" ∧
    (run_yt_dlp_opts outdir).outtmpl = pathJoin outdir "%(id)s.%(ext)s" := by
  refine ⟨rfl, rfl, rfl, rfl, rfl, rfl⟩

/-- Concrete environment for claim C1: the engine produced an existing file
of exactly 0 bytes, so the size is known (the filesystem query succeeded). -/
def envC1 : Env :=
  Env.mk (DlOutcome.ok (Info.mk (some "T") (some "U") (some "https://x.y/w"))
    "/d/v.mp4" true (some 0)) false true

/-- Claim C1 (counterexample): with a known file size of 0 bytes — which is
less than or equal to MAX_SEND_BYTES — the handler does not attempt a
video-attachment upload; it attempts a document upload instead, because the
Python condition `if size and size <= MAX_SEND_BYTES` treats 0 as falsy. -/
theorem C1_counterexample :
    (0 : Nat) ≤ MAX_SEND_BYTES ∧
    Act.tryVideo "/d/v.mp4" "T" ∉ handle "https://x.y/w" envC1 ∧
    Act.tryDocument "/d/v.mp4" "v.mp4" "T" ∈ handle "https://x.y/w" envC1 := by
  refine ⟨by decide, by decide, by decide⟩

/-- Claim C1 (amended): for every request whose download produced an
existing file, the handler attempts a video-attachment upload exactly when
the computed size is known, non-zero, and at most MAX_SEND_BYTES, and
attempts a generic-file (document) upload in every other case — including
an unknown size (failed filesystem query) and a known size of zero. -/
theorem C1_delivery_selector (text : String) (env : Env) (m : List Char)
    (ms : List (List Char)) (info : Info) (file : String) (size : Option Nat)
    (hfind : findAll text.toList = m :: ms)
    (henv : env.outcome = DlOutcome.ok info file true size)
    (hfile : file ≠ "") (hmid : env.midEditRaises = false) :
    (Act.tryVideo file (pyOrStr info.title (pathName file)) ∈ handle text env ↔
      ∃ n, size = some n ∧ n ≠ 0 ∧ n ≤ MAX_SEND_BYTES) ∧
    (Act.tryDocument file (pathName file) (pyOrStr info.title (pathName file)) ∈ handle text env ↔
      ¬ ∃ n, size = some n ∧ n ≠ 0 ∧ n ≤ MAX_SEND_BYTES) := by
  obtain ⟨o, me, up⟩ := env
  simp only at henv hmid
  subst henv hmid
  rw [handle_of_findAll _ _ _ _ hfind, ← sizeOkB_iff]
  unfold handleWithUrl handleBody deliverActs
  cases hs : sizeOkB size <;> cases up <;>
    simp [hs, hfile]

/-- Claim C1 witness data: an existing 1 KiB file. -/
def envC1w : Env :=
  Env.mk (DlOutcome.ok (Info.mk (some "T") (some "U") (some "https://w.x/y"))
    "/d/a.mp4" true (some 1024)) false true

/-- Claim C1 (witness): on a concrete request with a known 1 KiB file the
amended selector theorem applies and yields the video-attachment attempt. -/
theorem C1_delivery_selector_witness :
    findAll "https://w.x/y".toList = ["https://w.x/y".toList] ∧
    Act.tryVideo "/d/a.mp4" (pyOrStr (some "T") (pathName "/d/a.mp4")) ∈
      handle "https://w.x/y" envC1w :=
  ⟨by decide,
   (C1_delivery_selector "https://w.x/y" envC1w "https://w.x/y".toList []
      (Info.mk (some "T") (some "U") (some "https://w.x/y")) "/d/a.mp4" (some 1024)
      (by decide) rfl (by decide) rfl).1.mpr ⟨1024, rfl, by decide, by decide⟩⟩

theorem handleBody_no_post (env : Env) (url t : String) :
    Act.postStatus t ∉ handleBody env url := by
  obtain ⟨o, me, up⟩ := env
  cases o with
  | fail e => simp [handleBody]
  | ok info file ex size =>
    by_cases hm : file = "" ∨ ex = false
    · simp [handleBody, deliverActs, hm]
    · cases me <;> cases up <;> cases hs : sizeOkB size <;>
        simp [handleBody, deliverActs, hm, hs]

theorem handleBody_no_download (env : Env) (url u : String) :
    Act.download u ∉ handleBody env url := by
  obtain ⟨o, me, up⟩ := env
  cases o with
  | fail e => simp [handleBody]
  | ok info file ex size =>
    by_cases hm : file = "" ∨ ex = false
    · simp [handleBody, deliverActs, hm]
    · cases me <;> cases up <;> cases hs : sizeOkB size <;>
        simp [handleBody, deliverActs, hm, hs]

theorem countP_isPost_handleBody (env : Env) (url : String) :
    (handleBody env url).countP isPost = 0 := by
  rw [List.countP_eq_zero]
  intro a ha h
  cases a <;> simp [isPost] at h
  exact handleBody_no_post env url _ ha

/-- Claim C3: for every request, at most one progress message is ever
posted; on the terminal success path the progress message is deleted (the
last status operation is the delete), and on each terminal failure path —
download failure, missing produced file, upload failure — the last status
operation is an edit carrying the corresponding human-readable error text
and the progress message is never deleted. -/
theorem C3_status_lifecycle (text : String) (env : Env) :
    (handle text env).countP isPost ≤ 1 ∧
    (∀ m ms, findAll text.toList = m :: ms →
      ((∀ e, env.outcome = DlOutcome.fail e →
          lastStatusOp (handle text env) = some (Act.editStatus (dlFailedText e)) ∧
          Act.deleteStatus ∉ handle text env) ∧
       (∀ info file ex size, env.outcome = DlOutcome.ok info file ex size →
          file = "" ∨ ex = false →
          lastStatusOp (handle text env) = some (Act.editStatus (noFileText info)) ∧
          Act.deleteStatus ∉ handle text env) ∧
       (∀ info file size, env.outcome = DlOutcome.ok info file true size →
          file ≠ "" → env.midEditRaises = false → env.uploadOk = false →
          lastStatusOp (handle text env) =
            some (Act.editStatus
              (fallbackText info (String.mk (stripChars m)) (readable_size size))) ∧
          Act.deleteStatus ∉ handle text env) ∧
       (∀ info file size, env.outcome = DlOutcome.ok info file true size →
          file ≠ "" → env.midEditRaises = false → env.uploadOk = true →
          lastStatusOp (handle text env) = some Act.deleteStatus))) := by
  constructor
  · cases hf : findAll text.toList with
    | nil =>
      rw [handle_of_findAll_nil _ _ hf]
      simp [isPost]
    | cons m ms =>
      rw [handle_of_findAll _ _ _ _ hf]
      unfold handleWithUrl
      rw [List.countP_append, List.countP_append, countP_isPost_handleBody]
      simp [isPost, List.countP_cons]
  · intro m ms hf
    refine ⟨?_, ?_, ?_, ?_⟩
    · intro e henv
      obtain ⟨o, me, up⟩ := env
      simp only at henv
      subst henv
      rw [handle_of_findAll _ _ _ _ hf]
      simp [handleWithUrl, handleBody, lastStatusOp, isStatusOp]
    · intro info file ex size henv hm
      obtain ⟨o, me, up⟩ := env
      simp only at henv
      subst henv
      rw [handle_of_findAll _ _ _ _ hf]
      simp [handleWithUrl, handleBody, deliverActs, hm, lastStatusOp, isStatusOp]
    · intro info file size henv hfile hmid hup
      obtain ⟨o, me, up⟩ := env
      simp only at henv hmid hup
      subst henv hmid hup
      rw [handle_of_findAll _ _ _ _ hf]
      cases hs : sizeOkB size <;>
        simp [handleWithUrl, handleBody, deliverActs, hfile, hs, lastStatusOp, isStatusOp]
    · intro info file size henv hfile hmid hup
      obtain ⟨o, me, up⟩ := env
      simp only at henv hmid hup
      subst henv hmid hup
      rw [handle_of_findAll _ _ _ _ hf]
      cases hs : sizeOkB size <;>
        simp [handleWithUrl, handleBody, deliverActs, hfile, hs, lastStatusOp, isStatusOp]

/-- Concrete failing environment for the C3 witness: the engine raised. -/
def envC3 : Env := Env.mk (DlOutcome.fail "Private video") false true

/-- Claim C3 (witness): on a concrete download failure the progress message
ends edited to the failure text and is never deleted. -/
theorem C3_status_lifecycle_witness :
    lastStatusOp (handle "https://a.b/c" envC3) =
      some (Act.editStatus (dlFailedText "Private video")) ∧
    Act.deleteStatus ∉ handle "https://a.b/c" envC3 :=
  ((C3_status_lifecycle "https://a.b/c" envC3).2 "https://a.b/c".toList []
    (by decide)).1 "Private video" rfl

/-- Claim C4: after running any request trace the request-scoped temporary
directory is absent from the filesystem, and for every request that reaches
the download stage (a URL was found) the directory is created and its
removal is the very last effect — on the success path, on every handled
failure branch, and on the branch where the status edit raises an unhandled
exception out of the handler body. -/
theorem C4_tmpdir_cleanup (text : String) (env : Env) :
    tmpAfter (handle text env) = false ∧
    (∀ m ms, findAll text.toList = m :: ms →
      Act.mkTmpDir ∈ handle text env ∧
      (handle text env).getLast? = some Act.rmTmpDir) := by
  constructor
  · cases hf : findAll text.toList with
    | nil =>
      rw [handle_of_findAll_nil _ _ hf]
      simp [tmpAfter]
    | cons m ms =>
      rw [handle_of_findAll _ _ _ _ hf]
      unfold handleWithUrl
      simp [tmpAfter, List.foldl_append]
  · intro m ms hf
    rw [handle_of_findAll _ _ _ _ hf]
    unfold handleWithUrl
    refine ⟨by simp, List.getLast?_concat _⟩

/-- Concrete environment for the C4 witness: the mid-workflow status edit
raises, so an exception propagates out of the handler body; the directory
is still removed and removal is the final effect. -/
def envC4 : Env :=
  Env.mk (DlOutcome.ok (Info.mk (some "T") none none) "/d/a.mp4" true (some 5)) true true

/-- Claim C4 (witness): concrete instance of the cleanup theorem on the
unhandled-exception path. -/
theorem C4_tmpdir_cleanup_witness :
    tmpAfter (handle "https://a.b/c" envC4) = false ∧
    (handle "https://a.b/c" envC4).getLast? = some Act.rmTmpDir :=
  ⟨(C4_tmpdir_cleanup "https://a.b/c" envC4).1,
   ((C4_tmpdir_cleanup "https://a.b/c" envC4).2 "https://a.b/c".toList [] (by decide)).2⟩

/-- Claim C5: when the chosen upload attempt fails, the handler makes no
second upload attempt in the other mode (exactly one attempt appears in
the trace), the terminal status operation is an edit to the fixed fallback
summary (never a stack trace, and the message is not deleted), and that
summary contains the title, the uploader, the canonical URL (metadata
value, or the user URL as fallback), and the human-readable size. -/
theorem C5_upload_fallback (text : String) (env : Env) (m : List Char)
    (ms : List (List Char)) (info : Info) (file : String) (size : Option Nat)
    (hfind : findAll text.toList = m :: ms)
    (henv : env.outcome = DlOutcome.ok info file true size)
    (hfile : file ≠ "") (hmid : env.midEditRaises = false)
    (hup : env.uploadOk = false) :
    (handle text env).countP isTry = 1 ∧
    lastStatusOp (handle text env) =
      some (Act.editStatus
        (fallbackText info (String.mk (stripChars m)) (readable_size size))) ∧
    Act.deleteStatus ∉ handle text env ∧
    (∀ t, info.title = some t →
      ∃ p q, fallbackText info (String.mk (stripChars m)) (readable_size size)
        = p ++ (t ++ q)) ∧
    (∀ u, info.uploader = some u →
      ∃ p q, fallbackText info (String.mk (stripChars m)) (readable_size size)
        = p ++ (u ++ q)) ∧
    (∃ p q, fallbackText info (String.mk (stripChars m)) (readable_size size)
      = p ++ (pyOrStr info.webpage_url (String.mk (stripChars m)) ++ q)) ∧
    (∃ p, fallbackText info (String.mk (stripChars m)) (readable_size size)
      = p ++ readable_size size) := by
  obtain ⟨o, me, up⟩ := env
  simp only at henv hmid hup
  subst henv hmid hup
  rw [handle_of_findAll _ _ _ _ hfind]
  refine ⟨?_, ?_, ?_, ?_, ?_, ?_, ?_⟩
  · cases hs : sizeOkB size <;>
      simp [handleWithUrl, handleBody, deliverActs, hfile, hs, isTry,
        List.countP_append, List.countP_cons]
  · cases hs : sizeOkB size <;>
      simp [handleWithUrl, handleBody, deliverActs, hfile, hs, lastStatusOp, isStatusOp]
  · cases hs : sizeOkB size <;>
      simp [handleWithUrl, handleBody, deliverActs, hfile, hs]
  · intro t ht
    refine ⟨fbHeader ++ "Title: ",
      "\n" ++ "Uploader: " ++ pyStrOpt info.uploader ++ "\n" ++ "Original: " ++
        pyOrStr info.webpage_url (String.mk (stripChars m)) ++ "\n" ++
        "Size (detected): " ++ readable_size size, ?_⟩
    simp [fallbackText, ht, pyStrOpt, String.append_assoc]
  · intro u hu
    refine ⟨fbHeader ++ "Title: " ++ pyStrOpt info.title ++ "\n" ++ "Uploader: ",
      "\n" ++ "Original: " ++ pyOrStr info.webpage_url (String.mk (stripChars m)) ++ "\n" ++
        "Size (detected): " ++ readable_size size, ?_⟩
    simp [fallbackText, hu, pyStrOpt, String.append_assoc]
  · refine ⟨fbHeader ++ "Title: " ++ pyStrOpt info.title ++ "\n" ++ "Uploader: " ++
      pyStrOpt info.uploader ++ "\n" ++ "Original: ",
      "\n" ++ "Size (detected): " ++ readable_size size, ?_⟩
    simp [fallbackText, String.append_assoc]
  · refine ⟨fbHeader ++ "Title: " ++ pyStrOpt info.title ++ "\n" ++ "Uploader: " ++
      pyStrOpt info.uploader ++ "\n" ++ "Original: " ++
      pyOrStr info.webpage_url (String.mk (stripChars m)) ++ "\n" ++
      "Size (detected): ", ?_⟩
    simp [fallbackText, String.append_assoc]

/-- Concrete metadata and environment for the C5 witness: an oversized file
whose document upload fails. -/
def infoC5 : Info := Info.mk (some "T") (some "U") (some "https://orig/w")

/-- Concrete environment for the C5 witness. -/
def envC5 : Env :=
  Env.mk (DlOutcome.ok infoC5 "/d/big.mp4" true (some (60 * 1024 * 1024))) false false

/-- Claim C5 (witness): concrete failed upload — one attempt, terminal edit
to the fallback summary. -/
theorem C5_upload_fallback_witness :
    (handle "https://a.b/c" envC5).countP isTry = 1 ∧
    lastStatusOp (handle "https://a.b/c" envC5) =
      some (Act.editStatus (fallbackText infoC5
        (String.mk (stripChars "https://a.b/c".toList))
        (readable_size (some (60 * 1024 * 1024))))) :=
  ⟨(C5_upload_fallback "https://a.b/c" envC5 "https://a.b/c".toList [] infoC5
      "/d/big.mp4" (some (60 * 1024 * 1024)) (by decide) rfl (by decide) rfl rfl).1,
   (C5_upload_fallback "https://a.b/c" envC5 "https://a.b/c".toList [] infoC5
      "/d/big.mp4" (some (60 * 1024 * 1024)) (by decide) rfl (by decide) rfl rfl).2.1⟩

/-- Claim C6: the size gate is inclusive at the threshold — a produced file
of exactly MAX_SEND_BYTES bytes takes the video-attachment path, and one of
MAX_SEND_BYTES + 1 bytes takes the generic-file (document) path. -/
theorem C6_threshold_boundary (text : String) (m : List Char) (ms : List (List Char))
    (info : Info) (file : String) (me u : Bool)
    (hfind : findAll text.toList = m :: ms) (hfile : file ≠ "") (hme : me = false) :
    Act.tryVideo file (pyOrStr info.title (pathName file)) ∈
      handle text (Env.mk (DlOutcome.ok info file true (some MAX_SEND_BYTES)) me u) ∧
    Act.tryDocument file (pathName file) (pyOrStr info.title (pathName file)) ∈
      handle text (Env.mk (DlOutcome.ok info file true (some (MAX_SEND_BYTES + 1))) me u) := by
  subst hme
  have h1 : sizeOkB (some MAX_SEND_BYTES) = true := by decide
  have h2 : sizeOkB (some (MAX_SEND_BYTES + 1)) = false := by decide
  constructor <;> rw [handle_of_findAll _ _ _ _ hfind] <;> cases u <;>
    simp [handleWithUrl, handleBody, deliverActs, hfile, h1, h2]

/-- Claim C6 (witness): concrete boundary instance. -/
theorem C6_threshold_boundary_witness :
    Act.tryVideo "/d/a.mp4" (pyOrStr (some "T") (pathName "/d/a.mp4")) ∈
      handle "https://a.b/c"
        (Env.mk (DlOutcome.ok (Info.mk (some "T") none none) "/d/a.mp4" true
          (some MAX_SEND_BYTES)) false true) :=
  (C6_threshold_boundary "https://a.b/c" "https://a.b/c".toList []
    (Info.mk (some "T") none none) "/d/a.mp4" false true (by decide) (by decide) rfl).1

/-- Claim C7: when the message text contains two or more URLs, the handler
downloads exactly the first match (every download action in the trace names
it), and on the given scenario text the extractor yields exactly
`https://example.com/watch?v=abc123`. -/
theorem C7_first_url_only (text : String) (env : Env) (m : List Char)
    (ms : List (List Char)) (hfind : findAll text.toList = m :: ms) (_hms : ms ≠ []) :
    Act.download (String.mk (stripChars m)) ∈ handle text env ∧
    (∀ u, Act.download u ∈ handle text env → u = String.mk (stripChars m)) ∧
    findAll "check this out https://example.com/watch?v=abc123 thanks".toList
      = ["https://example.com/watch?v=abc123".toList] := by
  refine ⟨?_, ?_, by decide⟩
  · rw [handle_of_findAll _ _ _ _ hfind]
    simp [handleWithUrl]
  · intro u hu
    rw [handle_of_findAll _ _ _ _ hfind] at hu
    unfold handleWithUrl at hu
    rcases List.mem_append.mp hu with h | h
    · rcases List.mem_append.mp h with h' | h'
      · simp at h'
        exact h'
      · exact absurd h' (handleBody_no_download env _ u)
    · simp at h

/-- Environment for the C7 witness (outcome irrelevant to URL selection). -/
def envC7 : Env := Env.mk (DlOutcome.fail "x") false true

/-- Claim C7 (witness): a concrete two-URL message downloads only the first. -/
theorem C7_first_url_only_witness :
    Act.download (String.mk (stripChars "https://a.b".toList)) ∈
      handle "https://a.b x https://c.d" envC7 :=
  (C7_first_url_only "https://a.b x https://c.d" envC7 "https://a.b".toList
    ["https://c.d".toList] (by decide) (by decide)).1

/-- Claim C8: for every message text with no `http://` and no `https://`
substring, the extractor finds nothing, the handler replies asking for a
valid link, and the download orchestrator is never invoked. -/
theorem C8_no_link (text : String) (env : Env)
    (h1 : containsSubB httpList text.toList = false)
    (h2 : containsSubB httpsList text.toList = false) :
    findAll text.toList = [] ∧
    handle text env = [Act.replyText noLinkReply] ∧
    ∀ u, Act.download u ∉ handle text env := by
  have hf := findAll_eq_nil_of_no_scheme _ h1 h2
  refine ⟨hf, handle_of_findAll_nil _ _ hf, ?_⟩
  intro u
  rw [handle_of_findAll_nil _ _ hf]
  simp

/-- Environment for the C8 witness. -/
def envC8 : Env := Env.mk (DlOutcome.fail "x") false true

/-- Claim C8 (witness): concrete link-free message. -/
theorem C8_no_link_witness :
    containsSubB httpList "hello world".toList = false ∧
    containsSubB httpsList "hello world".toList = false ∧
    handle "hello world" envC8 = [Act.replyText noLinkReply] :=
  ⟨by decide, by decide, (C8_no_link "hello world" envC8 (by decide) (by decide)).2.1⟩

/-- Claim C9: a produced file that exists with a size of exactly 0 bytes is
treated like an unknown size — the handler takes the document path, not the
video path, and both the progress edit and the upload-failure fallback
render the size as the literal text `unknown size` (not `0.00 MB`). -/
theorem C9_zero_size (text : String) (env : Env) (m : List Char)
    (ms : List (List Char)) (info : Info) (file : String)
    (hfind : findAll text.toList = m :: ms)
    (henv : env.outcome = DlOutcome.ok info file true (some 0))
    (hfile : file ≠ "") (hmid : env.midEditRaises = false) :
    readable_size (some 0) = "unknown size" ∧
    readable_size (some 0) ≠ "0.00 MB" ∧
    Act.tryVideo file (pyOrStr info.title (pathName file)) ∉ handle text env ∧
    Act.tryDocument file (pathName file) (pyOrStr info.title (pathName file)) ∈
      handle text env ∧
    Act.editStatus (downloadedText (pyOrStr info.title (pathName file)) "unknown size") ∈
      handle text env ∧
    (env.uploadOk = false →
      lastStatusOp (handle text env) =
        some (Act.editStatus (fallbackText info (String.mk (stripChars m)) "unknown size"))) := by
  obtain ⟨o, me, up⟩ := env
  simp only at henv hmid
  subst henv hmid
  rw [handle_of_findAll _ _ _ _ hfind]
  have hs : sizeOkB (some 0) = false := by decide
  have hr : readable_size (some 0) = "unknown size" := by decide
  refine ⟨hr, by decide, ?_, ?_, ?_, ?_⟩
  · cases up <;> simp [handleWithUrl, handleBody, deliverActs, hfile, hs, hr]
  · cases up <;> simp [handleWithUrl, handleBody, deliverActs, hfile, hs, hr]
  · cases up <;> simp [handleWithUrl, handleBody, deliverActs, hfile, hs, hr]
  · intro hup
    simp only at hup
    subst hup
    simp [handleWithUrl, handleBody, deliverActs, hfile, hs, hr, lastStatusOp, isStatusOp]

/-- Concrete metadata and environment for the C9 witness: an empty file. -/
def envC9 : Env :=
  Env.mk (DlOutcome.ok (Info.mk (some "T") none none) "/d/e.mp4" true (some 0)) false true

/-- Claim C9 (witness): concrete empty-file instance takes the document path. -/
theorem C9_zero_size_witness :
    readable_size (some 0) = "unknown size" ∧
    Act.tryDocument "/d/e.mp4" (pathName "/d/e.mp4") (pyOrStr (some "T") (pathName "/d/e.mp4")) ∈
      handle "https://a.b/c" envC9 :=
  ⟨(C9_zero_size "https://a.b/c" envC9 "https://a.b/c".toList []
      (Info.mk (some "T") none none) "/d/e.mp4" (by decide) rfl (by decide) rfl).1,
   (C9_zero_size "https://a.b/c" envC9 "https://a.b/c".toList []
      (Info.mk (some "T") none none) "/d/e.mp4" (by decide) rfl (by decide) rfl).2.2.2.1⟩

/-- Claim C10: the upload-failure fallback message shows the metadata's
canonical webpage URL whenever that field is present and non-empty, and
falls back to the user-supplied URL when the field is absent or empty, so
the message always carries some URL. -/
theorem C10_fallback_url_choice (info : Info) (url rs : String) :
    (∃ p q, fallbackText info url rs = p ++ (pyOrStr info.webpage_url url ++ q)) ∧
    (∀ w, info.webpage_url = some w → w ≠ "" → pyOrStr info.webpage_url url = w) ∧
    ((info.webpage_url = none ∨ info.webpage_url = some "") →
      pyOrStr info.webpage_url url = url) := by
  refine ⟨⟨fbHeader ++ "Title: " ++ pyStrOpt info.title ++ "\n" ++ "Uploader: " ++
      pyStrOpt info.uploader ++ "\n" ++ "Original: ",
      "\n" ++ "Size (detected): " ++ rs, by simp [fallbackText, String.append_assoc]⟩, ?_, ?_⟩
  · intro w hw hne
    simp [pyOrStr, hw, hne]
  · rintro (h | h) <;> simp [pyOrStr, h]

/-- Claim C10 (witness): concrete instances of both directions of the URL
choice. -/
theorem C10_fallback_url_choice_witness :
    pyOrStr (some "https://w.x/v") "https://user/u" = "https://w.x/v" ∧
    pyOrStr (none : Option String) "https://user/u" = "https://user/u" :=
  ⟨(C10_fallback_url_choice (Info.mk none none (some "https://w.x/v")) "https://user/u"
      "unknown size").2.1 "https://w.x/v" rfl (by decide),
   (C10_fallback_url_choice (Info.mk none none none) "https://user/u"
      "unknown size").2.2 (Or.inl rfl)⟩
